import Mathlib

/-!
Verification of the gemc output-factory data model (`src/output/outputFactory.h`).

The C++ header is shallowly embedded: `map<K,V>` members become functions
`K → Option V`, `double` becomes `ℚ` (no floating-point arithmetic occurs in the
modelled code: values are only stored, retrieved and compared), `int` becomes
`ℤ`, and the non-const C++ methods are modelled as state transformers that
return a (value, record) pair so that any mutation of the record is explicit.
`std::map::operator[]`, which default-inserts a zero entry on a miss, is
embedded faithfully by `mapIndex`.
-/

/-- Scalar-valued named container: C++ `map<string, double>`. -/
abbrev ScalarMap := String → Option ℚ

/-- Per-step container: C++ `map<string, vector<double>>`. -/
abbrev VecMap := String → Option (List ℚ)

/-- Analog signal container: C++ `map<double, double>`. -/
abbrev SignalMap := ℚ → Option ℚ

/-- Quantized signal container: C++ `map<int, int>`. -/
abbrev QuantumMap := ℤ → Option ℤ

/-- Multi-digitized container: C++ `map<string, vector<int>>`. -/
abbrev MultiDgtMap := String → Option (List ℤ)

/-- The `hitOutput` class of `outputFactory.h` (lines 32-96): the six
dynamic-output containers of one hit. -/
structure hitOutput where
  raws : ScalarMap
  dgtz : ScalarMap
  allRaws : VecMap
  signalVT : SignalMap
  quantumS : QuantumMap
  multiDgt : MultiDgtMap

/-- C++ `std::map::operator[]`: returns the stored value if the key is
present; otherwise default-inserts a zero entry and returns it.  The result
is the value read together with the (possibly grown) map. -/
def mapIndex (m : ScalarMap) (s : String) : ℚ × ScalarMap :=
  match m s with
  | some v => (v, m)
  | none => (0, fun x => if x = s then some 0 else m x)

namespace hitOutput

/-- `setRaws` (line 64): replaces the whole `raws` container. -/
def setRaws (r : ScalarMap) (h : hitOutput) : hitOutput := { h with raws := r }

/-- `setDgtz` (line 65): replaces the whole `dgtz` container. -/
def setDgtz (d : ScalarMap) (h : hitOutput) : hitOutput := { h with dgtz := d }

/-- `setAllRaws` (line 66): replaces the whole `allRaws` container. -/
def setAllRaws (r : VecMap) (h : hitOutput) : hitOutput := { h with allRaws := r }

/-- `setSignal` (line 67): replaces the whole `signalVT` container. -/
def setSignal (s : SignalMap) (h : hitOutput) : hitOutput := { h with signalVT := s }

/-- `setQuantumS` (line 68): replaces the whole `quantumS` container. -/
def setQuantumS (s : QuantumMap) (h : hitOutput) : hitOutput := { h with quantumS := s }

/-- `setMultiDgt` (line 69): replaces the whole `multiDgt` container. -/
def setMultiDgt (d : MultiDgtMap) (h : hitOutput) : hitOutput := { h with multiDgt := d }

/-- `setOneRaw(string, double)` (line 71): `raws[s] = d`. -/
def setOneRaw (s : String) (d : ℚ) (h : hitOutput) : hitOutput :=
  { h with raws := fun x => if x = s then some d else h.raws x }

/-- `setOneRaw(string, int)` (line 72): `raws[s] = (double) i`, the integer is
widened to scalar (double) storage. -/
def setOneRawI (s : String) (i : ℤ) (h : hitOutput) : hitOutput :=
  setOneRaw s (i : ℚ) h

/-- `setOneDgt(string, double)` (line 74): `dgtz[s] = d`. -/
def setOneDgt (s : String) (d : ℚ) (h : hitOutput) : hitOutput :=
  { h with dgtz := fun x => if x = s then some d else h.dgtz x }

/-- `setOneDgt(string, int)` (line 75): `dgtz[s] = (double) i`. -/
def setOneDgtI (s : String) (i : ℤ) (h : hitOutput) : hitOutput :=
  setOneDgt s (i : ℚ) h

/-- `getRaws` (line 79): non-const method returning the `raws` member by
value; the result is the copy handed to the caller together with the record
as the method leaves it. -/
def getRaws (h : hitOutput) : ScalarMap × hitOutput := (h.raws, h)

/-- `getDgtz` (line 80). -/
def getDgtz (h : hitOutput) : ScalarMap × hitOutput := (h.dgtz, h)

/-- `getAllRaws` (line 81). -/
def getAllRaws (h : hitOutput) : VecMap × hitOutput := (h.allRaws, h)

/-- `getSignalVT` (line 82). -/
def getSignalVT (h : hitOutput) : SignalMap × hitOutput := (h.signalVT, h)

/-- `getQuantumS` (line 83). -/
def getQuantumS (h : hitOutput) : QuantumMap × hitOutput := (h.quantumS, h)

/-- `getMultiDgt` (line 84). -/
def getMultiDgt (h : hitOutput) : MultiDgtMap × hitOutput := (h.multiDgt, h)

/-- `getIntRawVar` (lines 86-90): `if(raws.find(s) != raws.end()) return
raws[s]; return -99;`.  The read through `operator[]` is embedded by
`mapIndex`, so any insertion it performed would show in the returned record. -/
def getIntRawVar (h : hitOutput) (s : String) : ℚ × hitOutput :=
  if (h.raws s).isSome then
    ((mapIndex h.raws s).1, { h with raws := (mapIndex h.raws s).2 })
  else (-99, h)

/-- `getIntDgtVar` (lines 91-95). -/
def getIntDgtVar (h : hitOutput) (s : String) : ℚ × hitOutput :=
  if (h.dgtz s).isSome then
    ((mapIndex h.dgtz s).1, { h with dgtz := (mapIndex h.dgtz s).2 })
  else (-99, h)

end hitOutput

/-- A caller obtains a container copy from a getter, mutates its copy with an
arbitrary function `f`, then calls the getter again on the same record; the
result is (the mutated copy, the value the second call returns). -/
def copyMutateReget {α : Type} (get : hitOutput → α × hitOutput) (f : α → α)
    (h : hitOutput) : α × α :=
  let r := get h
  (f r.1, (get r.2).1)

/-- C1: a `getIntRawVar`/`getIntDgtVar` lookup that misses its map returns
exactly the sentinel −99, and a lookup whose key is present returns the stored
value. -/
theorem hitOutput_named_lookup_sentinel (h : hitOutput) (s : String) :
    (h.raws s = none → (h.getIntRawVar s).1 = -99)
    ∧ (∀ v : ℚ, h.raws s = some v → (h.getIntRawVar s).1 = v)
    ∧ (h.dgtz s = none → (h.getIntDgtVar s).1 = -99)
    ∧ (∀ v : ℚ, h.dgtz s = some v → (h.getIntDgtVar s).1 = v) := by
  refine ⟨fun hm => ?_, fun v hv => ?_, fun hm => ?_, fun v hv => ?_⟩ <;>
    simp [hitOutput.getIntRawVar, hitOutput.getIntDgtVar, mapIndex, *]

/-- Concrete hit record used to witness the lookup theorems: `edep` is stored
in both scalar containers, nothing else is. -/
def sampleHit : hitOutput where
  raws := fun x => if x = "edep" then some 5 else none
  dgtz := fun x => if x = "edep" then some 7 else none
  allRaws := fun _ => none
  signalVT := fun _ => none
  quantumS := fun _ => none
  multiDgt := fun _ => none

/-- C1 witness: on `sampleHit`, the key `tdc` is absent from both maps and the
lookups return −99; the key `edep` is present and its stored value is
returned. -/
theorem hitOutput_named_lookup_sentinel_witness :
    (sampleHit.getIntRawVar "tdc").1 = -99 ∧ (sampleHit.getIntDgtVar "tdc").1 = -99
    ∧ (sampleHit.getIntRawVar "edep").1 = 5 ∧ (sampleHit.getIntDgtVar "edep").1 = 7 :=
  ⟨(hitOutput_named_lookup_sentinel sampleHit "tdc").1 rfl,
   (hitOutput_named_lookup_sentinel sampleHit "tdc").2.2.1 rfl,
   (hitOutput_named_lookup_sentinel sampleHit "edep").2.1 5 rfl,
   (hitOutput_named_lookup_sentinel sampleHit "edep").2.2.2 7 rfl⟩

/-- C2: every getter returns an independent copy of its container.  Each
getter leaves the record exactly as it was, and after the caller mutates the
returned copy with an arbitrary function, a subsequent call of the same getter
on the same record still returns the original container, whatever the
mutation did. -/
theorem hitOutput_getters_return_copies (h : hitOutput)
    (f₁ f₂ : ScalarMap → ScalarMap) (f₃ : VecMap → VecMap)
    (f₄ : SignalMap → SignalMap) (f₅ : QuantumMap → QuantumMap)
    (f₆ : MultiDgtMap → MultiDgtMap) :
    ((h.getRaws).2 = h ∧ (copyMutateReget hitOutput.getRaws f₁ h).2 = h.raws)
    ∧ ((h.getDgtz).2 = h ∧ (copyMutateReget hitOutput.getDgtz f₂ h).2 = h.dgtz)
    ∧ ((h.getAllRaws).2 = h ∧ (copyMutateReget hitOutput.getAllRaws f₃ h).2 = h.allRaws)
    ∧ ((h.getSignalVT).2 = h ∧ (copyMutateReget hitOutput.getSignalVT f₄ h).2 = h.signalVT)
    ∧ ((h.getQuantumS).2 = h ∧ (copyMutateReget hitOutput.getQuantumS f₅ h).2 = h.quantumS)
    ∧ ((h.getMultiDgt).2 = h ∧ (copyMutateReget hitOutput.getMultiDgt f₆ h).2 = h.multiDgt) :=
  ⟨⟨rfl, rfl⟩, ⟨rfl, rfl⟩, ⟨rfl, rfl⟩, ⟨rfl, rfl⟩, ⟨rfl, rfl⟩, ⟨rfl, rfl⟩⟩

/-- C3: each whole-container setter replaces the entire named container with
its argument; each single-entry setter sets exactly the named entry (all other
entries, and the other scalar container, are untouched); the integer overloads
widen the integer to scalar storage, so the named lookup afterwards returns
exactly that integer's value. -/
theorem hitOutput_setters_spec (h : hitOutput) (r d : ScalarMap) (ar : VecMap)
    (sg : SignalMap) (q : QuantumMap) (md : MultiDgtMap)
    (s x : String) (dv : ℚ) (i : ℤ) :
    (h.setRaws r).raws = r ∧ (h.setDgtz d).dgtz = d
    ∧ (h.setAllRaws ar).allRaws = ar ∧ (h.setSignal sg).signalVT = sg
    ∧ (h.setQuantumS q).quantumS = q ∧ (h.setMultiDgt md).multiDgt = md
    ∧ (h.setOneRaw s dv).raws x = (if x = s then some dv else h.raws x)
    ∧ (h.setOneRaw s dv).dgtz = h.dgtz
    ∧ (h.setOneDgt s dv).dgtz x = (if x = s then some dv else h.dgtz x)
    ∧ (h.setOneDgt s dv).raws = h.raws
    ∧ (h.setOneRawI s i).raws x = (if x = s then some (i : ℚ) else h.raws x)
    ∧ ((h.setOneRawI s i).getIntRawVar s).1 = (i : ℚ)
    ∧ (h.setOneDgtI s i).dgtz x = (if x = s then some (i : ℚ) else h.dgtz x)
    ∧ ((h.setOneDgtI s i).getIntDgtVar s).1 = (i : ℚ) := by
  refine ⟨rfl, rfl, rfl, rfl, rfl, rfl, rfl, rfl, rfl, rfl, rfl, ?_, rfl, ?_⟩ <;>
    simp [hitOutput.getIntRawVar, hitOutput.getIntDgtVar, hitOutput.setOneRawI,
      hitOutput.setOneDgtI, hitOutput.setOneRaw, hitOutput.setOneDgt, mapIndex]

/-- C8: the named lookups `getIntRawVar` and `getIntDgtVar` leave the record
completely unchanged; in particular a miss does not insert an entry, even
though the value is read through `operator[]` (the read is guarded by
`find`). -/
theorem hitOutput_lookup_pure (h : hitOutput) (s : String) :
    (h.getIntRawVar s).2 = h ∧ (h.getIntDgtVar s).2 = h := by
  constructor
  · cases hv : h.raws s <;> simp [hitOutput.getIntRawVar, mapIndex, hv]
  · cases hv : h.dgtz s <;> simp [hitOutput.getIntDgtVar, mapIndex, hv]

/-- C9: for each of the six container setter/getter pairs, setting the whole
container and then reading it back through the matching getter is the
identity. -/
theorem hitOutput_set_get_identity (h : hitOutput) (r d : ScalarMap)
    (ar : VecMap) (sg : SignalMap) (q : QuantumMap) (md : MultiDgtMap) :
    ((h.setRaws r).getRaws).1 = r ∧ ((h.setDgtz d).getDgtz).1 = d
    ∧ ((h.setAllRaws ar).getAllRaws).1 = ar
    ∧ ((h.setSignal sg).getSignalVT).1 = sg
    ∧ ((h.setQuantumS q).getQuantumS).1 = q
    ∧ ((h.setMultiDgt md).getMultiDgt).1 = md :=
  ⟨rfl, rfl, rfl, rfl, rfl, rfl⟩

/-- The `summaryForParticle` class of `outputFactory.h` (lines 109-128):
per-(particle, detector) rollup. -/
structure summaryForParticle where
  dname : String
  stat : ℤ
  etot : ℚ
  t : ℚ
  nphe : ℤ

/-- The `summaryForParticle(string detector)` constructor (lines 112-119):
`dname = detector; stat = 0; etot = 0; t = -1; nphe = 0;`. -/
def summaryForParticle.init (detector : String) : summaryForParticle :=
  { dname := detector, stat := 0, etot := 0, t := -1, nphe := 0 }

/-- C4: a freshly constructed `summaryForParticle` has hit count 0, total
energy 0, a strictly negative earliest time, photoelectron count 0, and the
detector name it was constructed with. -/
theorem summaryForParticle_init_spec (detector : String) :
    (summaryForParticle.init detector).stat = 0
    ∧ (summaryForParticle.init detector).etot = 0
    ∧ (summaryForParticle.init detector).t < 0
    ∧ (summaryForParticle.init detector).nphe = 0
    ∧ (summaryForParticle.init detector).dname = detector := by
  refine ⟨rfl, rfl, ?_, rfl, rfl⟩
  show (-1 : ℚ) < 0
  norm_num

/-- A 3-component vector, standing for Geant4's `G4ThreeVector`. -/
structure ThreeVector where
  x : ℚ
  y : ℚ
  z : ℚ

/-- The `generatedParticle` class of `outputFactory.h` (lines 137-157):
kinematics, identity, time, multiplicity, and the per-detector summaries. -/
structure generatedParticle where
  vertex : ThreeVector
  momentum : ThreeVector
  PID : ℤ
  time : ℚ
  multiplicity : ℤ
  pSum : List summaryForParticle

/-- The `generatedParticle()` default constructor (lines 140-143): it only
runs `pSum.clear()`; the scalar and vector members are left uninitialized, so
the model takes them as arbitrary arguments. -/
def generatedParticle.init (vertex momentum : ThreeVector) (PID : ℤ)
    (time : ℚ) (multiplicity : ℤ) : generatedParticle :=
  { vertex := vertex, momentum := momentum, PID := PID, time := time,
    multiplicity := multiplicity, pSum := [] }

/-- C10: a freshly constructed `generatedParticle` has an empty `pSum`
sequence, whatever values its uninitialized members hold. -/
theorem generatedParticle_init_empty_pSum (vertex momentum : ThreeVector)
    (PID : ℤ) (time : ℚ) (multiplicity : ℤ) :
    (generatedParticle.init vertex momentum PID time multiplicity).pSum = [] :=
  rfl

/-- Variable names `getVariableFromStringI` resolves (identity and
multiplicity, the integer-valued fields of a `generatedParticle`). -/
def recognizedIntNames : List String := ["pid", "multiplicity"]

/-- Variable names `getVariableFromStringD` resolves (vertex, momentum and
time, the floating-valued fields of a `generatedParticle`). -/
def recognizedDblNames : List String :=
  ["vx", "vy", "vz", "px", "py", "pz", "time"]

/-- Modelled from the spec: the body of
`generatedParticle::getVariableFromStringI` is not under `src/` (the header
only declares it at line 155).  Per the spec it resolves a named variable by
searching the identity/multiplicity fields and, for an unrecognized key,
returns a sentinel consistent with `hitOutput`'s convention (−99) rather than
performing an out-of-bounds access. -/
def generatedParticle.getVariableFromStringI (p : generatedParticle)
    (s : String) : ℤ :=
  if s = "pid" then p.PID
  else if s = "multiplicity" then p.multiplicity
  else -99

/-- Modelled from the spec: the body of
`generatedParticle::getVariableFromStringD` is not under `src/` (the header
only declares it at line 156).  Per the spec it resolves a named variable by
searching the vertex/momentum/time fields and returns the −99 sentinel for an
unrecognized key. -/
def generatedParticle.getVariableFromStringD (p : generatedParticle)
    (s : String) : ℚ :=
  if s = "vx" then p.vertex.x
  else if s = "vy" then p.vertex.y
  else if s = "vz" then p.vertex.z
  else if s = "px" then p.momentum.x
  else if s = "py" then p.momentum.y
  else if s = "pz" then p.momentum.z
  else if s = "time" then p.time
  else -99

/-- C6: querying a `generatedParticle` with a string that is not a recognized
vertex/momentum/identity/time field name yields the −99 sentinel (consistent
with `hitOutput`'s convention), never an out-of-bounds access: both lookup
functions are total and return −99 outside the recognized name lists. -/
theorem generatedParticle_unknown_variable_sentinel (p : generatedParticle)
    (s : String) :
    (s ∉ recognizedIntNames → p.getVariableFromStringI s = -99)
    ∧ (s ∉ recognizedDblNames → p.getVariableFromStringD s = -99) := by
  constructor
  · intro hs
    simp only [recognizedIntNames, List.mem_cons, List.not_mem_nil, or_false,
      not_or] at hs
    simp [generatedParticle.getVariableFromStringI, hs.1, hs.2]
  · intro hs
    simp only [recognizedDblNames, List.mem_cons, List.not_mem_nil, or_false,
      not_or] at hs
    simp [generatedParticle.getVariableFromStringD, hs.1, hs.2.1, hs.2.2.1,
      hs.2.2.2.1, hs.2.2.2.2.1, hs.2.2.2.2.2.1, hs.2.2.2.2.2.2]

/-- Concrete particle used to witness the unknown-variable lookup theorem. -/
def sampleParticle : generatedParticle :=
  generatedParticle.init ⟨0, 0, 0⟩ ⟨0, 0, 1⟩ 11 0 1

/-- C6 witness: the name `nonexistentVar` is in neither recognized list, and
both lookups on a concrete particle return −99 for it. -/
theorem generatedParticle_unknown_variable_sentinel_witness :
    sampleParticle.getVariableFromStringI "nonexistentVar" = -99
    ∧ sampleParticle.getVariableFromStringD "nonexistentVar" = -99 :=
  ⟨(generatedParticle_unknown_variable_sentinel sampleParticle
      "nonexistentVar").1 (by decide),
   (generatedParticle_unknown_variable_sentinel sampleParticle
      "nonexistentVar").2 (by decide)⟩

/-- The `outputFactory` backend contract (lines 183-211): the only state the
factory claims observe is the `outputType` identifier member (line 208); the
virtual write methods are pure-virtual in the header and belong to the
backends. -/
structure outputFactory where
  outputType : String

/-- `outputFactoryInMap` (line 214): a zero-argument constructor returning a
backend instance. -/
abbrev outputFactoryInMap := Unit → outputFactory

/-- A registry mapping output-kind identifiers to backend constructors, the
`map<string, outputFactoryInMap>` of lines 214-219. -/
abbrev FactoryRegistry := List (String × outputFactoryInMap)

/-- A registry is well formed when every registered constructor builds the
backend matching its key, as the spec requires of `registerOutputFactories`
("a mapping from output-kind identifier to a zero-argument constructor for
the matching backend"). -/
def wellFormedRegistry (reg : FactoryRegistry) : Prop :=
  ∀ e ∈ reg, ((e.2 ()).outputType = e.1)

/-- Modelled from the spec: the body of `getOutputFactory` is not under
`src/` (the header only declares it at line 217).  Per the spec it looks up
the kind, constructs and returns a new backend instance, and fails with a
descriptible "unknown output kind" error when the kind is absent — never a
silent null result. -/
def getOutputFactory (factoryMap : FactoryRegistry) (kind : String) :
    Except String outputFactory :=
  match factoryMap.lookup kind with
  | some ctor => .ok (ctor ())
  | none => .error ("unknown output kind: " ++ kind)

/-- Modelled from the spec: the body of `registerOutputFactories` is not
under `src/` (the header only declares it at line 219).  Per the spec it
builds the mapping from each output-kind identifier (the structured binary
"evio" stream and the plain "txt" stream) to a zero-argument constructor for
the matching backend. -/
def registerOutputFactories : FactoryRegistry :=
  [("evio", fun _ => { outputType := "evio" }),
   ("txt", fun _ => { outputType := "txt" })]

/-- Looking a key up in an association list yields one of its entries. -/
theorem lookup_mem_entry {reg : FactoryRegistry} {k : String}
    {c : outputFactoryInMap} (hl : reg.lookup k = some c) : (k, c) ∈ reg := by
  induction reg with
  | nil => simp [List.lookup] at hl
  | cons e t ih =>
    obtain ⟨ek, ec⟩ := e
    rw [List.lookup] at hl
    by_cases hk : k = ek
    · subst hk
      simp at hl
      subst hl
      exact List.mem_cons_self _ _
    · have : (k == ek) = false := beq_false_of_ne hk
      rw [this] at hl
      exact List.mem_cons_of_mem _ (ih hl)

/-- C5: for a well-formed registry, `getOutputFactory` returns, for every kind
present, a newly constructed backend whose `outputType` equals the requested
kind, and for every kind absent it returns a descriptible "unknown output
kind" error — it never produces a null/absent result silently. -/
theorem getOutputFactory_spec (reg : FactoryRegistry) (kind : String)
    (hw : wellFormedRegistry reg) :
    (∀ c : outputFactoryInMap, reg.lookup kind = some c →
      getOutputFactory reg kind = .ok (c ()) ∧ (c ()).outputType = kind)
    ∧ (reg.lookup kind = none →
      getOutputFactory reg kind = .error ("unknown output kind: " ++ kind)) := by
  constructor
  · intro c hc
    refine ⟨by simp [getOutputFactory, hc], ?_⟩
    exact hw (kind, c) (lookup_mem_entry hc)
  · intro hn
    simp [getOutputFactory, hn]

/-- C5 witness: on the modelled registry, the kind `evio` is present and the
factory returns the matching backend, while the kind `root` is absent and the
factory fails with the descriptible error. -/
theorem getOutputFactory_spec_witness :
    getOutputFactory registerOutputFactories "evio"
      = .ok { outputType := "evio" }
    ∧ getOutputFactory registerOutputFactories "root"
      = .error ("unknown output kind: " ++ "root") := by
  have hw : wellFormedRegistry registerOutputFactories := by
    intro e he
    rcases List.mem_cons.mp he with rfl | he2
    · rfl
    rcases List.mem_cons.mp he2 with rfl | he3
    · rfl
    · exact absurd he3 (List.not_mem_nil e)
  exact ⟨((getOutputFactory_spec registerOutputFactories "evio" hw).1
            (fun _ => { outputType := "evio" }) rfl).1,
         (getOutputFactory_spec registerOutputFactories "root" hw).2 rfl⟩

/-- State of one underlying output stream: whether its open succeeded, and
how many times it has been flushed and closed. -/
structure streamHandle where
  openOk : Bool
  flushCount : ℕ
  closeCount : ℕ

/-- A freshly opened stream: no flush or close has happened yet; `ok` records
whether the open succeeded. -/
def mkStreamHandle (ok : Bool) : streamHandle :=
  { openOk := ok, flushCount := 0, closeCount := 0 }

/-- Closing a stream outright: flushing and closing a stream whose open
failed, or one already closed, is the double-close error the spec rules
out. -/
def rawClose (h : streamHandle) : Except String streamHandle :=
  if h.openOk = false then .error "close of a stream that failed to open"
  else if h.closeCount ≠ 0 then .error "double close"
  else .ok { h with flushCount := h.flushCount + 1, closeCount := h.closeCount + 1 }

/-- Modelled from the spec: the channel teardown guards the close behind a
validity check, so a stream that failed to open or was already closed is left
alone instead of being closed a second time. -/
def guardedClose (h : streamHandle) : Except String streamHandle :=
  if h.openOk = true ∧ h.closeCount = 0 then rawClose h else .ok h

/-- Teardown of an optional handle: an absent handle is untouched. -/
def destroyHandle : Option streamHandle → Except String (Option streamHandle)
  | none => .ok none
  | some h => (guardedClose h).map some

/-- The `outputContainer` class of `outputFactory.h` (lines 164-176): the
resolved output kind, the destination path, and the two stream members
`ofstream *txtoutput` and `evioFileChannel *pchan`, of which exactly one is
live (the `goptions` configuration member carries no observable state for the
claims and is dropped). -/
structure outputContainer where
  outType : String
  outFile : String
  txtoutput : Option streamHandle
  pchan : Option streamHandle

/-- Modelled from the spec: the `outputContainer(goptions)` constructor body
is not under `src/` (the header only declares it at line 167).  Per the spec
it resolves the output kind and destination from configuration and opens
exactly the matching resource, the text stream for the `txt` kind and the
structured EVIO stream otherwise; `openOk` records whether that open
succeeded. -/
def outputContainer.init (kind path : String) (openOk : Bool) :
    outputContainer :=
  if kind = "txt" then
    { outType := kind, outFile := path,
      txtoutput := some (mkStreamHandle openOk), pchan := none }
  else
    { outType := kind, outFile := path,
      txtoutput := none, pchan := some (mkStreamHandle openOk) }

/-- Modelled from the spec: the `~outputContainer()` destructor body is not
under `src/` (the header only declares it at line 168).  Per the spec the
destructor flushes and closes the owned resource exactly once, guarding
against a stream that failed to open or was already closed. -/
def outputContainer.destroy (c : outputContainer) :
    Except String outputContainer :=
  match destroyHandle c.txtoutput, destroyHandle c.pchan with
  | .ok t, .ok p => .ok { c with txtoutput := t, pchan := p }
  | .error e, _ => .error e
  | .ok _, .error e => .error e

/-- The handle a successfully destroyed channel is left with: flushed and
closed exactly once when its open had succeeded, untouched when it had
failed. -/
def closedHandle (ok : Bool) : streamHandle :=
  { openOk := ok, flushCount := if ok then 1 else 0,
    closeCount := if ok then 1 else 0 }

/-- C7: a channel holds exactly one live stream, the one matching its kind;
destroying it never raises an error (also when the open had failed), flushes
and closes the open stream exactly once, and a second teardown of the
already-destroyed channel changes nothing and raises no double-close
error. -/
theorem outputContainer_lifecycle (kind path : String) (ok : Bool) :
    ((outputContainer.init kind path ok).txtoutput.isSome = (kind == "txt")
     ∧ (outputContainer.init kind path ok).pchan.isSome = !(kind == "txt"))
    ∧ (outputContainer.init kind path ok).destroy
        = .ok { outType := kind, outFile := path,
                txtoutput := if kind = "txt" then some (closedHandle ok) else none,
                pchan := if kind = "txt" then none else some (closedHandle ok) }
    ∧ outputContainer.destroy
        { outType := kind, outFile := path,
          txtoutput := if kind = "txt" then some (closedHandle ok) else none,
          pchan := if kind = "txt" then none else some (closedHandle ok) }
        = .ok { outType := kind, outFile := path,
                txtoutput := if kind = "txt" then some (closedHandle ok) else none,
                pchan := if kind = "txt" then none else some (closedHandle ok) }
    ∧ (closedHandle true).closeCount = 1 ∧ (closedHandle true).flushCount = 1
    ∧ (closedHandle false).closeCount = 0 := by
  by_cases hk : kind = "txt" <;> cases ok <;>
    simp [outputContainer.init, outputContainer.destroy, destroyHandle,
      guardedClose, rawClose, mkStreamHandle, closedHandle, hk, Except.map]
